import Mathlib

/-!
Shallow embedding of the Alluka dependency-injection engine (Rust/pyo3 sources:
client.rs, types.rs, visitor.rs, anyio.rs, plus the older crate-root snapshot
lib.rs).  Python objects are modelled by an opaque inductive `PyObj`, Python
exceptions by `PyErr`, and the `HashMap<isize, PyObject>` registries by
association lists keyed by the Python hash (`Int`, standing for `isize`).
Callables are modelled as pure functions from positional and keyword arguments
to a result object; a coroutine result is a distinguished `PyObj` constructor,
matching what `asyncio.iscoroutine` observes.
-/

namespace Alluka

/-- Opaque model of a Python object.  `obj n` is an arbitrary distinct object,
`pynone` is `None`, `undefined` is the `alluka.abc.UNDEFINED` sentinel and
`coro n` is a coroutine object that, once awaited, yields `obj n`. -/
inductive PyObj where
| obj : Nat → PyObj
| pynone : PyObj
| undefined : PyObj
| coro : Nat → PyObj
deriving DecidableEq, Repr

/-- Model of `asyncio.iscoroutine`. -/
def PyObj.isCoroutine : PyObj → Bool
| .coro _ => true
| _ => false

/-- Awaiting a value: a coroutine yields its wrapped value, anything else is
returned unchanged (the semantics of `anyio.maybe_async` / driving the
value through the async bridge). -/
def awaitObj : PyObj → PyObj
| .coro n => .obj n
| v => v

/-- Python truthiness, as used by `if self._exception:` in the one-shot
channel: `None` is falsy, every other modelled object is truthy (exception
instances are truthy in Python). -/
def pyTruthy : PyObj → Bool
| .pynone => false
| _ => true

/-- Model of `hash(obj)` for opaque objects: an injective assignment standing
for the host's hash/identity contract. -/
def pyObjHash : PyObj → Int
| .obj n => Int.ofNat n
| .pynone => -1
| .undefined => -2
| .coro n => -3 - Int.ofNat n

/-- A member of a (flattened) union annotation: either a plain class or
Python's `NoneType`.  `typing.get_args` always returns unions flattened, so
union members are atoms. -/
inductive PyAtom where
| simple : Nat → PyAtom
| noneType : PyAtom
deriving DecidableEq, Repr

/-- A type-annotation value: a single class or a union of classes
(`typing.Union` / `types.UnionType`). -/
inductive PyType where
| atom : PyAtom → PyType
| union : List PyAtom → PyType
deriving DecidableEq, Repr

/-- Human-readable representation of an atom (model of `repr`). -/
def PyAtom.reprStr : PyAtom → String
| .simple n => "Type" ++ toString n
| .noneType => "NoneType"

/-- Human-readable representation of a type annotation (model of `repr`). -/
def PyType.reprStr : PyType → String
| .atom a => a.reprStr
| .union ms => "Union[" ++ String.intercalate ", " (ms.map PyAtom.reprStr) ++ "]"

/-- Model of `hash(type)` for type keys (`type_.hash()` in the sources). -/
def PyAtom.pyHash : PyAtom → Int
| .simple n => Int.ofNat n
| .noneType => -1

/-- Hash of a type annotation; only atoms are ever used as registry keys. -/
def PyType.pyHash : PyType → Int
| .atom a => a.pyHash
| .union _ => -2

/-- Model of a Python exception as raised by the embedded code. -/
inductive PyErr where
| keyError : String → PyErr
| asyncOnlyError : PyErr
| missingDependencyError : String → PyType → PyErr
| runtimeError : String → PyErr
| raised : PyObj → PyErr
| otherError : Nat → PyErr
deriving DecidableEq, Repr

/-- Model of `err.is_instance_of::<PyRuntimeError>`. -/
def PyErr.isRuntimeError : PyErr → Bool
| .runtimeError _ => true
| _ => false

/-- Association-list lookup, modelling `HashMap::get`. -/
def mapGet {κ α : Type} [DecidableEq κ] : List (κ × α) → κ → Option α
| [], _ => none
| (k2, v) :: rest, k => if k2 = k then some v else mapGet rest k

/-- Association-list insertion, modelling `HashMap::insert` (replaces the
value of an existing key, otherwise adds the entry). -/
def mapSet {κ α : Type} [DecidableEq κ] : List (κ × α) → κ → α → List (κ × α)
| [], k, v => [(k, v)]
| (k2, v2) :: rest, k, v =>
  if k2 = k then (k2, v) :: rest else (k2, v2) :: mapSet rest k v

/-- Association-list removal, modelling `HashMap::remove`: returns the removed
value (if any) together with the remaining map. -/
def mapRemove {κ α : Type} [DecidableEq κ] : List (κ × α) → κ → Option α × List (κ × α)
| [], _ => (none, [])
| (k2, v) :: rest, k =>
  if k2 = k then (some v, rest)
  else
    let r := mapRemove rest k
    (r.1, (k2, v) :: r.2)

@[simp] theorem mapGet_nil {κ α : Type} [DecidableEq κ] (k : κ) :
    mapGet ([] : List (κ × α)) k = none := rfl

theorem mapGet_mapSet_self {κ α : Type} [DecidableEq κ]
    (m : List (κ × α)) (k : κ) (v : α) : mapGet (mapSet m k v) k = some v := by
  induction m with
  | nil => simp [mapSet, mapGet]
  | cons hd tl ih =>
    by_cases h : hd.1 = k
    · simp [mapSet, mapGet, h]
    · simp [mapSet, mapGet, h, ih]

theorem mapGet_mapSet_ne {κ α : Type} [DecidableEq κ]
    (m : List (κ × α)) (k k2 : κ) (v : α) (h : k2 ≠ k) :
    mapGet (mapSet m k v) k2 = mapGet m k2 := by
  have h2 : k ≠ k2 := Ne.symm h
  induction m with
  | nil => simp [mapSet, mapGet, h2]
  | cons hd tl ih =>
    obtain ⟨a, b⟩ := hd
    by_cases h1 : a = k
    · simp [mapSet, mapGet, h1, h2]
    · simp [mapSet, mapGet, h1, ih]

theorem mapRemove_absent {κ α : Type} [DecidableEq κ]
    (m : List (κ × α)) (k : κ) (h : mapGet m k = none) :
    mapRemove m k = (none, m) := by
  induction m with
  | nil => simp [mapRemove]
  | cons hd tl ih =>
    by_cases h1 : hd.1 = k
    · simp [mapGet, h1] at h
    · simp [mapGet, h1] at h
      simp [mapRemove, h1, ih h]

/-- The `Client` registry state (client.rs `struct Client`): the callback
override map and the type-dependency map, each keyed by the Python hash of
the callback / type.  The descriptor cache and the `introspect_annotations`
flag are omitted: descriptor extraction is the external introspection
collaborator, and descriptor lists are passed to the dispatch functions
explicitly. -/
structure Client where
  callback_overrides : List (Int × PyObj)
  type_dependencies : List (Int × PyObj)
deriving DecidableEq, Repr

/-- The per-call `BasicContext` state (client.rs `struct BasicContext`); the
client handle is passed explicitly, mirroring the `client.borrow(py)`
arguments of the Rust methods. -/
structure BasicContext where
  special_cased_types : List (Int × PyObj)
  result_cache : List (Int × PyObj)
deriving DecidableEq, Repr

/-- client.rs `Client::get_type_dependency_rust`. -/
def Client.get_type_dependency_rust (c : Client) (type_hash : Int) : Option PyObj :=
  mapGet c.type_dependencies type_hash

/-- client.rs `BasicContext::get_type_dependency_rust`: probe the context's
local override map first, then the client's registry. -/
def BasicContext.get_type_dependency_rust (ctx : BasicContext) (c : Client) (type_hash : Int) :
    Option PyObj :=
  match mapGet ctx.special_cased_types type_hash with
  | some v => some v
  | none => c.get_type_dependency_rust type_hash

/-- client.rs `Client::set_type_dependency` (always succeeds; the insert
replaces any existing entry). -/
def Client.set_type_dependency (c : Client) (type_hash : Int) (value : PyObj) : Client :=
  { c with type_dependencies := mapSet c.type_dependencies type_hash value }

/-- client.rs `Client::get_type_dependency` (the Python-facing method): the
registered value if present, else the supplied default, else the
`alluka.abc.UNDEFINED` sentinel. -/
def Client.get_type_dependency (c : Client) (type_hash : Int) (default : Option PyObj) : PyObj :=
  match mapGet c.type_dependencies type_hash with
  | some v => v
  | none =>
    match default with
    | some d => d
    | none => .undefined

/-- client.rs `Client::remove_type_dependency`: `KeyError` when the key is
absent (the map is untouched in that case), otherwise the entry is deleted. -/
def Client.remove_type_dependency (c : Client) (type_hash : Int) : Except PyErr Client :=
  match mapRemove c.type_dependencies type_hash with
  | (none, _) => .error (.keyError ("Type dependency not found: " ++ toString type_hash))
  | (some _, m2) => .ok { c with type_dependencies := m2 }

/-- client.rs `Client::set_callback_override`. -/
def Client.set_callback_override (c : Client) (callback_hash : Int) (override_ : PyObj) : Client :=
  { c with callback_overrides := mapSet c.callback_overrides callback_hash override_ }

/-- client.rs `Client::get_callback_override`. -/
def Client.get_callback_override (c : Client) (callback_hash : Int) : Option PyObj :=
  mapGet c.callback_overrides callback_hash

/-- client.rs `Client::remove_callback_override`. -/
def Client.remove_callback_override (c : Client) (callback_hash : Int) : Except PyErr Client :=
  match mapRemove c.callback_overrides callback_hash with
  | (none, _) => .error (.keyError ("Callback override not found: " ++ toString callback_hash))
  | (some _, m2) => .ok { c with callback_overrides := m2 }

/-- lib.rs (older crate-root snapshot) `Client::remove_type_dependency`.  The
condition is the reverse of client.rs: it raises `KeyError` when `remove`
returned `Some` (the key was present, and the entry has already been deleted
by the time the error is raised) and returns `Ok` when the key was absent.
The result pairs the raised-or-ok outcome with the client state afterwards,
because the deletion persists even on the error path. -/
def Client.remove_type_dependency_lib_snapshot (c : Client) (type_hash : Int) :
    Except PyErr Unit × Client :=
  match mapRemove c.type_dependencies type_hash with
  | (some _, m2) =>
    (.error (.keyError ("Type dependency not found: " ++ toString type_hash)),
      { c with type_dependencies := m2 })
  | (none, _) => (.ok (), c)

/-- client.rs `BasicContext::get_type_dependency` (the Python-facing method):
context-local override first, then the client registry, then the supplied
default, else the `alluka.abc.UNDEFINED` sentinel. -/
def BasicContext.get_type_dependency (ctx : BasicContext) (c : Client) (type_hash : Int)
    (default : Option PyObj) : PyObj :=
  match ctx.get_type_dependency_rust c type_hash with
  | some v => v
  | none =>
    match default with
    | some d => d
    | none => .undefined

/-- types.rs `struct InjectedCallback`: wraps the target callable object. -/
structure InjectedCallback where
  callback : PyObj
deriving DecidableEq, Repr

/-- types.rs `struct InjectedType`: optional default, human-readable requested
type, the candidate types and their hashes (`type_ids`). -/
structure InjectedType where
  default : Option PyObj
  repr_type : PyType
  types : List PyType
  type_ids : List Int
deriving DecidableEq, Repr

/-- types.rs `enum Injected`. -/
inductive Injected where
| callback : InjectedCallback → Injected
| type_ : InjectedType → Injected
deriving DecidableEq, Repr

/-- types.rs `Injected::new_callback`. -/
def Injected.new_callback (cb : PyObj) : Injected :=
  .callback { callback := cb }

/-- types.rs `Injected::new_type`: stores the candidate types together with
their hashes. -/
def Injected.new_type (default : Option PyObj) (repr_type : PyType) (types : List PyType) :
    Injected :=
  .type_ { default, repr_type, types, type_ids := types.map PyType.pyHash }

/-- types.rs `InjectedType::resolve_rust`: the first `type_ids` entry found by
probing the context (local overrides first, then the client registry) wins;
otherwise the default if present; otherwise a `MissingDependencyError`
carrying the human-readable representation of the requested type. -/
def InjectedType.resolve_rust (t : InjectedType) (c : Client) (ctx : BasicContext) :
    Except PyErr PyObj :=
  match (t.type_ids.filterMap (fun cls => ctx.get_type_dependency_rust c cls)).head? with
  | some v => .ok v
  | none =>
    match t.default with
    | some d => .ok d
    | none =>
      .error (.missingDependencyError
        ("Couldn't resolve injected type(s) " ++ t.repr_type.reprStr ++ " to actual value")
        t.repr_type)

/-- A Python callable, modelled as a pure function from the positional
arguments and the (content of the) keyword-argument dict to the returned
object.  Passing no kwargs dict and passing an empty dict are
indistinguishable to a Python callee, so the kwargs are normalised to a
plain association list. -/
structure PyCallable where
  call : List PyObj → List (String × PyObj) → PyObj

/-- The ambient state of one dispatch call: the borrowed client and context,
plus the recursive dispatch entry points that an injected-callback descriptor
re-enters (`ctx.call_with_di_rust` with empty positional arguments for the
sync path, and the awaited result of `BasicContext::call_with_async_di_rust`
for the async path).  The recursion is abstracted as a function of the
effective callback object, the way types.rs hands the callback straight back
to the dispatch protocol. -/
structure DispatchEnv where
  client : Client
  ctx : BasicContext
  recurseSync : PyObj → Except PyErr PyObj
  recurseAsync : PyObj → Except PyErr PyObj

/-- types.rs `InjectedCallback::resolve_rust`: look up a callback override for
the wrapped callable, then recurse into the sync dispatch protocol with the
override if one exists, else with the callable itself. -/
def InjectedCallback.resolve_rust (cb : InjectedCallback) (env : DispatchEnv) :
    Except PyErr PyObj :=
  match env.client.get_callback_override (pyObjHash cb.callback) with
  | some ov => env.recurseSync ov
  | none => env.recurseSync cb.callback

/-- types.rs `InjectedCallback::resolve_rust_async`: same override lookup, but
through the async dispatch path; the model collapses creating the future and
awaiting it into one step. -/
def InjectedCallback.resolve_rust_async (cb : InjectedCallback) (env : DispatchEnv) :
    Except PyErr PyObj :=
  match env.client.get_callback_override (pyObjHash cb.callback) with
  | some ov => env.recurseAsync ov
  | none => env.recurseAsync cb.callback

/-- Resolution of one descriptor on the sync path (the match inside
client.rs `Client::call_with_ctx_rust`). -/
def resolveInjectedSync (env : DispatchEnv) : Injected → Except PyErr PyObj
| .type_ t => t.resolve_rust env.client env.ctx
| .callback cb => cb.resolve_rust env

/-- The kwargs-merging loop of client.rs `Client::call_with_ctx_rust` when the
caller supplied a kwargs dict: each resolved value is written into the dict
with `set_item`, unconditionally, in descriptor order. -/
def applyDescriptorsSync (env : DispatchEnv) (dict : List (String × PyObj)) :
    List (String × Injected) → Except PyErr (List (String × PyObj))
| [] => .ok dict
| (k, inj) :: rest =>
  match resolveInjectedSync env inj with
  | .error e => .error e
  | .ok v => applyDescriptorsSync env (mapSet dict k v) rest

/-- The `collect::<PyResult<Vec<_>>>` of client.rs `call_with_ctx_rust` when
the caller supplied no kwargs: resolve every descriptor, in order, into a
(name, value) list. -/
def resolveDescriptorsSync (env : DispatchEnv) :
    List (String × Injected) → Except PyErr (List (String × PyObj))
| [] => .ok []
| (k, inj) :: rest =>
  match resolveInjectedSync env inj with
  | .error e => .error e
  | .ok v =>
    match resolveDescriptorsSync env rest with
    | .error e => .error e
    | .ok rs => .ok ((k, v) :: rs)

/-- client.rs `Client::call_with_ctx_rust` (the synchronous dispatch path):
build-or-fetch of descriptors is external, so the extracted descriptor list is
a parameter.  If it is non-empty, every descriptor is resolved and merged into
the keyword arguments (`set_item`, so an existing caller entry is replaced);
then the callable is invoked, and a coroutine result raises
`AsyncOnlyError`. -/
def call_with_ctx_rust (env : DispatchEnv) (descriptors : List (String × Injected))
    (cb : PyCallable) (args : List PyObj) (kwargs : Option (List (String × PyObj))) :
    Except PyErr PyObj :=
  let merged : Except PyErr (List (String × PyObj)) :=
    if descriptors.isEmpty then .ok (kwargs.getD [])
    else
      match kwargs with
      | some dict => applyDescriptorsSync env dict descriptors
      | none =>
        match resolveDescriptorsSync env descriptors with
        | .error e => .error e
        | .ok resolved => .ok (resolved.foldl (fun d p => mapSet d p.1 p.2) [])
  match merged with
  | .error e => .error e
  | .ok kw2 =>
    let result := cb.call args kw2
    if result.isCoroutine then .error .asyncOnlyError else .ok result

/-- Phase 1 of client.rs `Client::call_with_ctx_async_rust` over the
descriptor list: type descriptors are resolved synchronously inline and
written straight into the kwargs dict (`set_item`), while callback
descriptors are collected (their futures are started) to be awaited later. -/
def gatherDescriptorsAsync (env : DispatchEnv) :
    List (String × Injected) → List (String × PyObj) →
    List (String × InjectedCallback) →
    Except PyErr (List (String × PyObj) × List (String × InjectedCallback))
| [], kw, futs => .ok (kw, futs)
| (k, inj) :: rest, kw, futs =>
  match inj with
  | .type_ t =>
    match t.resolve_rust env.client env.ctx with
    | .error e => .error e
    | .ok v => gatherDescriptorsAsync env rest (mapSet kw k v) futs
  | .callback cb => gatherDescriptorsAsync env rest kw (futs ++ [(k, cb)])

/-- The await loop of client.rs `Client::call_with_ctx_async_rust`: each
callback future is awaited in order and its (name, value) pair recorded. -/
def awaitDescriptorsAsync (env : DispatchEnv) :
    List (String × InjectedCallback) → Except PyErr (List (String × PyObj))
| [] => .ok []
| (k, cb) :: rest =>
  match cb.resolve_rust_async env with
  | .error e => .error e
  | .ok v =>
    match awaitDescriptorsAsync env rest with
    | .error e => .error e
    | .ok rs => .ok ((k, v) :: rs)

/-- client.rs `Client::call_with_ctx_async_rust` (the asynchronous dispatch
path).  Empty descriptor list: early return, invoking the callable with the
caller's arguments unaltered and driving a coroutine result through
`maybe_async` / the bridge (`awaitObj`).  Otherwise type descriptors are
merged inline, callback descriptors are awaited and their values merged
afterwards (again with unconditional `set_item`), the callable is invoked
with the merged kwargs and an asynchronous result is awaited. -/
def call_with_ctx_async_rust (env : DispatchEnv) (descriptors : List (String × Injected))
    (cb : PyCallable) (args : List PyObj) (kwargs : Option (List (String × PyObj))) :
    Except PyErr PyObj :=
  if descriptors.isEmpty then
    .ok (awaitObj (cb.call args (kwargs.getD [])))
  else
    match gatherDescriptorsAsync env descriptors (kwargs.getD []) [] with
    | .error e => .error e
    | .ok (kw1, futs) =>
      if futs.isEmpty then
        .ok (awaitObj (cb.call args kw1))
      else
        match awaitDescriptorsAsync env futs with
        | .error e => .error e
        | .ok resolved =>
          .ok (awaitObj (cb.call args (resolved.foldl (fun d p => mapSet d p.1 p.2) kw1)))

/-- lib.rs (older crate-root snapshot) `Client::call_with_ctx`, the
synchronous dispatch of that snapshot: when descriptors exist it only makes
sure a kwargs dict exists (the iterator over the descriptors is built and
discarded, so no resolved value is ever merged), invokes the callable with
the caller's arguments, and returns whatever comes back — it never checks
whether the result is a coroutine. -/
def call_with_ctx_lib_snapshot (descriptors : List (String × Injected)) (cb : PyCallable)
    (args : List PyObj) (kwargs : Option (List (String × PyObj))) : Except PyErr PyObj :=
  let kwargs2 := if descriptors.isEmpty then kwargs else some (kwargs.getD [])
  .ok (cb.call args (kwargs2.getD []))

/-- visitor.rs `ParameterVisitor::parse_type`.  A non-union annotation becomes
a type descriptor with that single candidate type.  A union annotation is
flattened into its members in declaration order; members that are `NoneType`
are removed (`retain`), and when at least one was removed and no explicit
default exists, Python `None` becomes the implicit default. -/
def ParameterVisitor.parse_type (type_ : PyType) (other_default : Option PyObj) : Injected :=
  match type_ with
  | .union members =>
    let sub_types := members
    let len := sub_types.length
    let sub_types := sub_types.filter (fun value => !(value == PyAtom.noneType))
    if sub_types.length != len && other_default.isNone then
      Injected.new_type (some .pynone) type_ (sub_types.map PyType.atom)
    else
      Injected.new_type other_default type_ (sub_types.map PyType.atom)
  | t => Injected.new_type other_default t [t]

/-- anyio.rs `OneShotChannel` (the Python class defined in `py_one_shot`):
an `anyio.Event` flag plus the stored value and exception slots, both
initialised to `None`. -/
structure OneShotChannel where
  _channel : Bool
  _exception : PyObj
  _value : PyObj
deriving DecidableEq, Repr

/-- `OneShotChannel.__init__`. -/
def OneShotChannel.init : OneShotChannel :=
  { _channel := false, _exception := .pynone, _value := .pynone }

/-- `OneShotChannel.set`: raises `RuntimeError` when the channel event was
already set, otherwise stores the value and sets the event. -/
def OneShotChannel.set (c : OneShotChannel) (value : PyObj) : Except PyErr OneShotChannel :=
  if c._channel then .error (.runtimeError "Channel already set")
  else .ok { c with _value := value, _channel := true }

/-- `OneShotChannel.set_exception`: raises `RuntimeError` when the channel
event was already set, otherwise stores the exception and sets the event. -/
def OneShotChannel.set_exception (c : OneShotChannel) (exception : PyObj) :
    Except PyErr OneShotChannel :=
  if c._channel then .error (.runtimeError "Channel already set")
  else .ok { c with _exception := exception, _channel := true }

/-- `OneShotChannel.get`, after the `await self._channel.wait()` suspension:
re-raises a (copy of a) stored truthy exception, otherwise returns the stored
value.  `copy.copy` of the exception is modelled as the exception itself. -/
def OneShotChannel.get (c : OneShotChannel) : Except PyErr PyObj :=
  if pyTruthy c._exception then .error (.raised c._exception) else .ok c._value

/-- anyio.rs `enum Context`: which foreign cooperative runtime the bridge
detected — a running asyncio event loop, or a current trio token. -/
inductive RuntimeContext where
| asyncio : PyObj → RuntimeContext
| trio : PyObj → RuntimeContext
deriving DecidableEq, Repr

/-- anyio.rs `Context::new`.  The two probes
(`asyncio.get_running_loop()` and `trio.lowlevel.current_trio_token()`) are
passed in as their outcomes.  The returned flag records whether the trio
probe was consulted at all: asyncio is asked first, and trio only when the
asyncio probe failed with a `RuntimeError` (the "no running loop"
condition); any other probe error propagates unchanged, and if both probes
report the no-loop condition the call fails with a fresh
`RuntimeError("No running event loop")`. -/
def RuntimeContext.new (asyncio_probe : Except PyErr PyObj) (trio_probe : Except PyErr PyObj) :
    Except PyErr RuntimeContext × Bool :=
  match asyncio_probe with
  | .ok event_loop => (.ok (.asyncio event_loop), false)
  | .error err =>
    if !err.isRuntimeError then (.error err, false)
    else
      match trio_probe with
      | .ok token => (.ok (.trio token), true)
      | .error err2 =>
        if err2.isRuntimeError then (.error (.runtimeError "No running event loop"), true)
        else (.error err2, true)

/-- A trivial dispatch environment for concrete evaluations. -/
def envTrivial : DispatchEnv :=
  { client := ⟨[], []⟩, ctx := ⟨[], []⟩,
    recurseSync := fun _ => .ok .pynone, recurseAsync := fun _ => .ok .pynone }

/-- A callable that returns a coroutine object, whatever its arguments. -/
def cbCoroEx : PyCallable := ⟨fun _ _ => .coro 0⟩

/-- A callable that returns a plain object, whatever its arguments. -/
def cbConstEx : PyCallable := ⟨fun _ _ => .obj 5⟩

/-- A client with one callback override (key 10) and one type dependency
(key 5), for exercising the removal methods. -/
def cEx2 : Client := ⟨[(10, .obj 3)], [(5, .obj 1)]⟩

/-- C10: registering a dependency or an override always succeeds and silently
replaces any existing entry for the same key (`HashMap::insert`), so after
`set_type_dependency(k, v1); set_type_dependency(k, v2)` the registry maps
`k` to `v2`, other keys are untouched, and the sibling registry is untouched;
likewise for `set_callback_override`. -/
theorem set_dependency_last_write_wins (c : Client) (k : Int) (v1 v2 : PyObj) :
    mapGet ((c.set_type_dependency k v1 |>.set_type_dependency k v2).type_dependencies) k
      = some v2
  ∧ (∀ k2, k2 ≠ k →
      mapGet ((c.set_type_dependency k v1 |>.set_type_dependency k v2).type_dependencies) k2
        = mapGet c.type_dependencies k2)
  ∧ (c.set_type_dependency k v1).callback_overrides = c.callback_overrides
  ∧ mapGet ((c.set_callback_override k v1 |>.set_callback_override k v2).callback_overrides) k
      = some v2
  ∧ (∀ k2, k2 ≠ k →
      mapGet ((c.set_callback_override k v1 |>.set_callback_override k v2).callback_overrides) k2
        = mapGet c.callback_overrides k2)
  ∧ (c.set_callback_override k v1).type_dependencies = c.type_dependencies := by
  refine ⟨?_, ?_, rfl, ?_, ?_, rfl⟩
  · simp [Client.set_type_dependency, mapGet_mapSet_self]
  · intro k2 h
    simp [Client.set_type_dependency, mapGet_mapSet_ne _ _ _ _ h]
  · simp [Client.set_callback_override, mapGet_mapSet_self]
  · intro k2 h
    simp [Client.set_callback_override, mapGet_mapSet_ne _ _ _ _ h]

/-- Concrete instantiation of the last-write-wins theorem. -/
theorem set_dependency_last_write_wins_witness :
    mapGet (((Client.mk [] []).set_type_dependency 5 (.obj 1)
        |>.set_type_dependency 5 (.obj 2)).type_dependencies) 5 = some (.obj 2)
  ∧ mapGet (((Client.mk [] []).set_type_dependency 5 (.obj 1)
        |>.set_type_dependency 5 (.obj 2)).type_dependencies) 3
      = mapGet (Client.mk [] []).type_dependencies 3
  ∧ mapGet (((Client.mk [] []).set_callback_override 5 (.obj 1)
        |>.set_callback_override 5 (.obj 2)).callback_overrides) 5 = some (.obj 2) :=
  ⟨(set_dependency_last_write_wins (Client.mk [] []) 5 (.obj 1) (.obj 2)).1,
    (set_dependency_last_write_wins (Client.mk [] []) 5 (.obj 1) (.obj 2)).2.1 3 (by decide),
    (set_dependency_last_write_wins (Client.mk [] []) 5 (.obj 1) (.obj 2)).2.2.2.1⟩

/-- C9: when a type key has no registered dependency (and, for a context, no
context-local override), `Client.get_type_dependency` and
`BasicContext.get_type_dependency` called without a default return the
`alluka.abc.UNDEFINED` sentinel — they do not raise and do not return
Python `None`. -/
theorem get_type_dependency_returns_undefined (c : Client) (ctx : BasicContext) (k : Int)
    (hc : mapGet c.type_dependencies k = none)
    (hl : mapGet ctx.special_cased_types k = none) :
    c.get_type_dependency k none = PyObj.undefined
  ∧ ctx.get_type_dependency c k none = PyObj.undefined
  ∧ PyObj.undefined ≠ PyObj.pynone := by
  refine ⟨?_, ?_, by decide⟩
  · simp [Client.get_type_dependency, hc]
  · simp [BasicContext.get_type_dependency, BasicContext.get_type_dependency_rust,
      Client.get_type_dependency_rust, hl, hc]

/-- Concrete instantiation of the UNDEFINED-sentinel theorem. -/
theorem get_type_dependency_returns_undefined_witness :
    (Client.mk [(10, .obj 3)] [(5, .obj 1)]).get_type_dependency 6 none = PyObj.undefined
  ∧ (BasicContext.mk [(7, .obj 4)] []).get_type_dependency
      (Client.mk [(10, .obj 3)] [(5, .obj 1)]) 6 none = PyObj.undefined
  ∧ PyObj.undefined ≠ PyObj.pynone :=
  get_type_dependency_returns_undefined (Client.mk [(10, .obj 3)] [(5, .obj 1)])
    (BasicContext.mk [(7, .obj 4)] []) 6 (by decide) (by decide)

/-- C2 (code bug in the lib.rs snapshot): on the older crate-root snapshot the
removal condition is inverted — removing a present key deletes the entry and
then raises `KeyError "Type dependency not found"`, while removing an absent
key silently succeeds.  The client.rs implementation behaves as the claim
states on the same inputs: `KeyError` exactly when the key is absent (with
the registry unchanged), deletion of exactly that entry otherwise. -/
theorem remove_dependency_lib_snapshot_inverted :
    Client.remove_type_dependency_lib_snapshot cEx2 5
      = (.error (.keyError "Type dependency not found: 5"), Client.mk [(10, .obj 3)] [])
  ∧ Client.remove_type_dependency_lib_snapshot cEx2 6 = (.ok (), cEx2)
  ∧ Client.remove_type_dependency cEx2 5 = .ok (Client.mk [(10, .obj 3)] [])
  ∧ Client.remove_type_dependency cEx2 6
      = .error (.keyError "Type dependency not found: 6")
  ∧ Client.remove_callback_override cEx2 10 = .ok (Client.mk [] [(5, .obj 1)])
  ∧ Client.remove_callback_override cEx2 11
      = .error (.keyError "Callback override not found: 11") :=
  ⟨rfl, rfl, rfl, rfl, rfl, rfl⟩

/-- C4 (code bug in the lib.rs snapshot): the older crate-root snapshot's
synchronous `call_with_ctx` returns a coroutine result unawaited instead of
raising `AsyncOnlyError`; the client.rs implementation raises
`AsyncOnlyError` on the same input, as the claim states. -/
theorem lib_snapshot_sync_returns_unawaited_coroutine :
    call_with_ctx_lib_snapshot [] cbCoroEx [] none = .ok (.coro 0)
  ∧ PyObj.isCoroutine (.coro 0) = true
  ∧ call_with_ctx_rust envTrivial [] cbCoroEx [] none = .error .asyncOnlyError :=
  ⟨rfl, rfl, rfl⟩

/-- C6: a one-shot channel is settable exactly once — after a successful `set`
or `set_exception`, every further `set` or `set_exception` raises
`RuntimeError "Channel already set"` without overwriting, and the consumer
observes exactly the first stored outcome (the value, or the exception
re-raised). -/
theorem one_shot_channel_set_once (v w e x : PyObj) (he : pyTruthy e = true) :
    (∃ c1, OneShotChannel.init.set v = .ok c1
      ∧ c1.set w = .error (.runtimeError "Channel already set")
      ∧ c1.set_exception x = .error (.runtimeError "Channel already set")
      ∧ c1.get = .ok v)
  ∧ (∃ c2, OneShotChannel.init.set_exception e = .ok c2
      ∧ c2.set w = .error (.runtimeError "Channel already set")
      ∧ c2.set_exception x = .error (.runtimeError "Channel already set")
      ∧ c2.get = .error (.raised e)) := by
  constructor
  · exact ⟨{ _channel := true, _exception := .pynone, _value := v }, rfl, rfl, rfl, rfl⟩
  · refine ⟨{ _channel := true, _exception := e, _value := .pynone }, rfl, rfl, rfl, ?_⟩
    simp [OneShotChannel.get, he]

/-- Concrete instantiation of the one-shot-channel theorem. -/
theorem one_shot_channel_set_once_witness :
    pyTruthy (PyObj.obj 3) = true
  ∧ ((∃ c1, OneShotChannel.init.set (PyObj.obj 1) = .ok c1
      ∧ c1.set (PyObj.obj 2) = .error (.runtimeError "Channel already set")
      ∧ c1.set_exception (PyObj.obj 4) = .error (.runtimeError "Channel already set")
      ∧ c1.get = .ok (PyObj.obj 1))
  ∧ (∃ c2, OneShotChannel.init.set_exception (PyObj.obj 3) = .ok c2
      ∧ c2.set (PyObj.obj 2) = .error (.runtimeError "Channel already set")
      ∧ c2.set_exception (PyObj.obj 4) = .error (.runtimeError "Channel already set")
      ∧ c2.get = .error (.raised (PyObj.obj 3)))) :=
  ⟨by decide,
    one_shot_channel_set_once (PyObj.obj 1) (PyObj.obj 2) (PyObj.obj 3) (PyObj.obj 4) (by decide)⟩

/-- C7: runtime detection asks asyncio for a running loop first; the trio
token is consulted (the Bool records that) only when the asyncio probe failed
with the `RuntimeError` no-loop condition; when both probes report no-loop
the call fails with `RuntimeError "No running event loop"`; any probe error
other than the no-loop condition propagates unchanged. -/
theorem runtime_detection_order (ap tp : Except PyErr PyObj) :
    (∀ l, ap = .ok l → RuntimeContext.new ap tp = (.ok (.asyncio l), false))
  ∧ (∀ e, ap = .error e → e.isRuntimeError = false →
      RuntimeContext.new ap tp = (.error e, false))
  ∧ (∀ e t, ap = .error e → e.isRuntimeError = true → tp = .ok t →
      RuntimeContext.new ap tp = (.ok (.trio t), true))
  ∧ (∀ e e2, ap = .error e → e.isRuntimeError = true → tp = .error e2 →
      e2.isRuntimeError = true →
      RuntimeContext.new ap tp = (.error (.runtimeError "No running event loop"), true))
  ∧ (∀ e e2, ap = .error e → e.isRuntimeError = true → tp = .error e2 →
      e2.isRuntimeError = false →
      RuntimeContext.new ap tp = (.error e2, true)) := by
  refine ⟨?_, ?_, ?_, ?_, ?_⟩ <;> intros <;> subst_vars <;> simp [RuntimeContext.new, *]

/-- Concrete instantiation of the runtime-detection theorem: both probes
report the no-loop condition. -/
theorem runtime_detection_order_witness :
    RuntimeContext.new (.error (.runtimeError "no running event loop"))
        (.error (.runtimeError "no trio token"))
      = (.error (.runtimeError "No running event loop"), true) :=
  (runtime_detection_order (.error (.runtimeError "no running event loop"))
      (.error (.runtimeError "no trio token"))).2.2.2.1
    (.runtimeError "no running event loop") (.runtimeError "no trio token")
    rfl (by decide) rfl (by decide)

theorem filterMapAllNone {α β : Type} (f : α → Option β) (l : List α)
    (h : ∀ k ∈ l, f k = none) : l.filterMap f = [] := by
  induction l with
  | nil => rfl
  | cons a l ih =>
    have ha := h a (by simp)
    rw [List.filterMap_cons, ha]
    exact ih (fun k hk => h k (by simp [hk]))

/-- C3: resolving a type descriptor returns the value of the first `type_ids`
entry that is found, each key probed first in the context's local override
map and then in the client's registry; when no key is found it returns the
descriptor's default if one exists, and otherwise fails with a
`MissingDependencyError` carrying the human-readable representation of the
requested type. -/
theorem injected_type_resolution_order (t : InjectedType) (c : Client) (ctx : BasicContext) :
    (∀ pre k post v, t.type_ids = pre ++ k :: post →
        (∀ x ∈ pre, ctx.get_type_dependency_rust c x = none) →
        ctx.get_type_dependency_rust c k = some v →
        t.resolve_rust c ctx = .ok v)
  ∧ (∀ d, t.default = some d →
        (∀ k ∈ t.type_ids, ctx.get_type_dependency_rust c k = none) →
        t.resolve_rust c ctx = .ok d)
  ∧ (t.default = none →
        (∀ k ∈ t.type_ids, ctx.get_type_dependency_rust c k = none) →
        t.resolve_rust c ctx = .error (.missingDependencyError
          ("Couldn't resolve injected type(s) " ++ t.repr_type.reprStr ++ " to actual value")
          t.repr_type))
  ∧ (∀ k v, mapGet ctx.special_cased_types k = some v →
        ctx.get_type_dependency_rust c k = some v)
  ∧ (∀ k, mapGet ctx.special_cased_types k = none →
        ctx.get_type_dependency_rust c k = mapGet c.type_dependencies k) := by
  refine ⟨?_, ?_, ?_, ?_, ?_⟩
  · intro pre k post v heq hpre hk
    unfold InjectedType.resolve_rust
    rw [heq, List.filterMap_append, filterMapAllNone _ pre hpre, List.filterMap_cons, hk]
    rfl
  · intro d hd hall
    unfold InjectedType.resolve_rust
    rw [filterMapAllNone _ _ hall, hd]
    rfl
  · intro hd hall
    unfold InjectedType.resolve_rust
    rw [filterMapAllNone _ _ hall, hd]
    rfl
  · intro k v h
    simp [BasicContext.get_type_dependency_rust, h]
  · intro k h
    simp [BasicContext.get_type_dependency_rust, Client.get_type_dependency_rust, h]

/-- Concrete instantiation of the resolution-order theorem: the first key is
registered nowhere, the second key is found in the client registry, and an
unrelated key sits in the context-local overrides. -/
theorem injected_type_resolution_order_witness :
    InjectedType.resolve_rust
        ⟨none, .atom (.simple 1), [.atom (.simple 1), .atom (.simple 2)], [1, 2]⟩
        ⟨[], [(2, PyObj.obj 9)]⟩ ⟨[(7, PyObj.obj 5)], []⟩
      = .ok (PyObj.obj 9) :=
  (injected_type_resolution_order
      ⟨none, .atom (.simple 1), [.atom (.simple 1), .atom (.simple 2)], [1, 2]⟩
      ⟨[], [(2, PyObj.obj 9)]⟩ ⟨[(7, PyObj.obj 5)], []⟩).1
    [1] 2 [] (PyObj.obj 9) rfl (by decide) (by decide)

/-- C5: for a callable whose extracted descriptor list is empty, the sync
dispatch takes the early-return fast path: the callable is invoked with the
caller's positional and keyword arguments unaltered and its (non-coroutine)
result is returned as is; the async dispatch likewise passes the arguments
through unaltered, and for a non-coroutine result returns exactly the direct
invocation's result. -/
theorem empty_descriptors_early_return_passthrough (env : DispatchEnv) (cb : PyCallable)
    (args : List PyObj) (kwargs : Option (List (String × PyObj)))
    (hnc : (cb.call args (kwargs.getD [])).isCoroutine = false) :
    call_with_ctx_rust env [] cb args kwargs = .ok (cb.call args (kwargs.getD []))
  ∧ call_with_ctx_async_rust env [] cb args kwargs
      = .ok (awaitObj (cb.call args (kwargs.getD [])))
  ∧ awaitObj (cb.call args (kwargs.getD [])) = cb.call args (kwargs.getD []) := by
  refine ⟨?_, rfl, ?_⟩
  · simp [call_with_ctx_rust, hnc]
  · generalize cb.call args (kwargs.getD []) = r at hnc ⊢
    cases r <;> simp_all [awaitObj, PyObj.isCoroutine]

/-- Concrete instantiation of the early-return theorem. -/
theorem empty_descriptors_early_return_passthrough_witness :
    PyObj.isCoroutine (cbConstEx.call [] []) = false
  ∧ (call_with_ctx_rust envTrivial [] cbConstEx [] none = .ok (cbConstEx.call [] [])
  ∧ call_with_ctx_async_rust envTrivial [] cbConstEx [] none
      = .ok (awaitObj (cbConstEx.call [] []))
  ∧ awaitObj (cbConstEx.call [] []) = cbConstEx.call [] []) :=
  ⟨by decide, empty_descriptors_early_return_passthrough envTrivial cbConstEx [] none (by decide)⟩

theorem length_filter_noneType_bne (ms : List PyAtom) :
    (((ms.filter fun value => !(value == PyAtom.noneType)).length) != ms.length)
      = ms.any (fun value => value == PyAtom.noneType) := by
  induction ms with
  | nil => rfl
  | cons a ms ih =>
    by_cases ha : a = PyAtom.noneType
    · subst ha
      have hle : (ms.filter fun value => !(value == PyAtom.noneType)).length ≤ ms.length :=
        List.length_filter_le _ _
      have hne : (ms.filter fun value => !(value == PyAtom.noneType)).length ≠ ms.length + 1 := by
        omega
      simp [List.filter_cons, List.any_cons, hne]
    · have ha2 : (a == PyAtom.noneType) = false := by
        simp [ha]
      simp only [List.filter_cons, List.any_cons, ha2, Bool.not_false, if_true, cond_true,
        Bool.false_or, List.length_cons]
      rw [← ih]
      simp [Nat.succ_ne_succ, bne_iff_ne]

/-- C8 (counterexample): a union annotation containing `NoneType` together
with an explicit default.  `parse_type` removes `NoneType` from the candidate
key list even though an explicit default exists (the `retain` runs
unconditionally), so the produced key list is not the union's member list in
declaration order; the explicit default is kept. -/
theorem union_nonetype_removed_despite_default_cex :
    ParameterVisitor.parse_type (.union [.simple 0, .noneType]) (some (.obj 9))
      = Injected.type_ ⟨some (.obj 9), .union [.simple 0, .noneType], [.atom (.simple 0)], [0]⟩
  ∧ ([PyType.atom (.simple 0)] ≠ [PyType.atom (.simple 0), PyType.atom .noneType]) :=
  ⟨rfl, by decide⟩

/-- C8 (amended): for a union annotation, the candidate key list is the
union's members in declaration order with the `NoneType` members always
removed; when the union contained `NoneType` and no explicit default exists,
Python `None` becomes the implicit default, and otherwise the supplied
default (or the absence of one) is kept. -/
theorem parse_type_union_flattening (ms : List PyAtom) (d : Option PyObj) :
    ParameterVisitor.parse_type (.union ms) d = Injected.new_type
      (if ms.any (fun value => value == PyAtom.noneType) && d.isNone then some .pynone else d)
      (.union ms)
      ((ms.filter (fun value => !(value == PyAtom.noneType))).map PyType.atom) := by
  simp only [ParameterVisitor.parse_type]
  rw [length_filter_noneType_bne]
  split <;> rfl

/-- The effect of merging a fully resolved (name, value) list into a kwargs
dict by repeated `set_item`, in order. -/
def mergeResolved (rs : List (String × PyObj)) (kw : List (String × PyObj)) :
    List (String × PyObj) :=
  rs.foldl (fun d p => mapSet d p.1 p.2) kw

/-- The value the merge leaves for a name: the value of the last resolved
entry with that name, if any. -/
def lastResolved : List (String × PyObj) → String → Option PyObj
| [], _ => none
| (k1, v1) :: rest, k =>
  match lastResolved rest k with
  | some v => some v
  | none => if k1 = k then some v1 else none

theorem mapGet_mergeResolved (rs kw : List (String × PyObj)) (k : String) :
    mapGet (mergeResolved rs kw) k =
      match lastResolved rs k with
      | some v => some v
      | none => mapGet kw k := by
  induction rs generalizing kw with
  | nil => rfl
  | cons p rest ih =>
    obtain ⟨k1, v1⟩ := p
    show mapGet (mergeResolved rest (mapSet kw k1 v1)) k = _
    rw [ih]
    cases hlr : lastResolved rest k with
    | some v => simp [lastResolved, hlr]
    | none =>
      by_cases hk : k1 = k
      · subst hk
        simp [lastResolved, hlr, mapGet_mapSet_self]
      · simp [lastResolved, hlr, hk, mapGet_mapSet_ne _ _ _ _ (Ne.symm hk)]

theorem applyDescriptorsSync_eq (env : DispatchEnv) (ds : List (String × Injected))
    (dict : List (String × PyObj)) :
    applyDescriptorsSync env dict ds =
      match resolveDescriptorsSync env ds with
      | .error e => .error e
      | .ok rs => .ok (mergeResolved rs dict) := by
  induction ds generalizing dict with
  | nil => rfl
  | cons p rest ih =>
    obtain ⟨k, inj⟩ := p
    simp only [applyDescriptorsSync, resolveDescriptorsSync]
    cases resolveInjectedSync env inj with
    | error e => rfl
    | ok v =>
      dsimp only
      rw [ih]
      cases resolveDescriptorsSync env rest with
      | error e => rfl
      | ok rs => rfl

/-- A type descriptor requesting the type with hash 7. -/
def tIntEx : InjectedType :=
  { default := none, repr_type := .atom (.simple 7), types := [.atom (.simple 7)],
    type_ids := [7] }

/-- A dispatch environment whose client registers `obj 2` for type hash 7. -/
def envCollision : DispatchEnv :=
  { client := ⟨[], [(7, PyObj.obj 2)]⟩, ctx := ⟨[], []⟩,
    recurseSync := fun _ => .ok .pynone, recurseAsync := fun _ => .ok .pynone }

/-- A callable that returns the value it was handed for the keyword "a". -/
def cbProbeA : PyCallable := ⟨fun _ kw => (mapGet kw "a").getD .pynone⟩

/-- C1 (counterexample): the caller supplies the keyword argument
"a" := obj 1, the injected parameter "a" resolves to obj 2, and the callable
(which returns the value of the keyword "a" it receives) is observed to
receive obj 2 — the resolved value overwrote the caller-supplied one instead
of only filling a gap. -/
theorem resolved_overwrites_caller_kwarg_cex :
    call_with_ctx_rust envCollision [("a", .type_ tIntEx)] cbProbeA []
        (some [("a", PyObj.obj 1)]) = .ok (PyObj.obj 2)
  ∧ PyObj.obj 2 ≠ PyObj.obj 1 :=
  ⟨rfl, by decide⟩

/-- The type-descriptor resolutions performed inline by phase 1 of the async
dispatch, as a (name, value) list in descriptor order (callback descriptors
are skipped; they are awaited later). -/
def resolveTypeDescriptorsAsync (env : DispatchEnv) :
    List (String × Injected) → Except PyErr (List (String × PyObj))
| [] => .ok []
| (k, inj) :: rest =>
  match inj with
  | .type_ t =>
    match t.resolve_rust env.client env.ctx with
    | .error e => .error e
    | .ok v =>
      match resolveTypeDescriptorsAsync env rest with
      | .error e => .error e
      | .ok rs => .ok ((k, v) :: rs)
  | .callback _ => resolveTypeDescriptorsAsync env rest

/-- The callback descriptors of a descriptor list, with their parameter
names, in descriptor order — the futures phase 1 of the async dispatch
collects. -/
def callbackDescriptorsOf : List (String × Injected) → List (String × InjectedCallback)
| [] => []
| (k, inj) :: rest =>
  match inj with
  | .type_ _ => callbackDescriptorsOf rest
  | .callback cb => (k, cb) :: callbackDescriptorsOf rest

theorem gatherDescriptorsAsync_eq (env : DispatchEnv) (ds : List (String × Injected)) :
    ∀ kw futs0, gatherDescriptorsAsync env ds kw futs0 =
      match resolveTypeDescriptorsAsync env ds with
      | .error e => .error e
      | .ok tys => .ok (mergeResolved tys kw, futs0 ++ callbackDescriptorsOf ds) := by
  induction ds with
  | nil =>
    intro kw futs0
    simp [gatherDescriptorsAsync, resolveTypeDescriptorsAsync, callbackDescriptorsOf,
      mergeResolved]
  | cons p rest ih =>
    intro kw futs0
    obtain ⟨k, inj⟩ := p
    cases inj with
    | type_ t =>
      simp only [gatherDescriptorsAsync, resolveTypeDescriptorsAsync, callbackDescriptorsOf]
      cases t.resolve_rust env.client env.ctx with
      | error e => rfl
      | ok v =>
        dsimp only
        rw [ih]
        cases resolveTypeDescriptorsAsync env rest with
        | error e => rfl
        | ok tys => rfl
    | callback cb =>
      simp only [gatherDescriptorsAsync, resolveTypeDescriptorsAsync, callbackDescriptorsOf]
      rw [ih]
      cases resolveTypeDescriptorsAsync env rest with
      | error e => rfl
      | ok tys => simp [List.append_assoc]

/-- C1 (amended): in every dispatch call — sync and async — the resolved
descriptor values are written into the keyword-argument set unconditionally
(`set_item`), in merge order, so on a name collision the resolved value
overwrites the caller-supplied keyword argument; the caller's value survives
only for names no descriptor resolves.  On the sync path the merge applies
all resolved values in descriptor order; on the async path the inline
type-descriptor values are merged first and the awaited callback-descriptor
values after, and the per-name characterizations make the precedence
explicit (last resolved value for the name, else the caller's value). -/
theorem dispatch_kwargs_merge_resolved_wins (env : DispatchEnv)
    (ds : List (String × Injected)) (cb : PyCallable) (args : List PyObj)
    (kw rs tys cbs : List (String × PyObj))
    (hrs : resolveDescriptorsSync env ds = .ok rs)
    (hnc : (cb.call args (mergeResolved rs kw)).isCoroutine = false)
    (hty : resolveTypeDescriptorsAsync env ds = .ok tys)
    (hcb : awaitDescriptorsAsync env (callbackDescriptorsOf ds) = .ok cbs) :
    call_with_ctx_rust env ds cb args (some kw) = .ok (cb.call args (mergeResolved rs kw))
  ∧ (∀ k, mapGet (mergeResolved rs kw) k =
      match lastResolved rs k with
      | some v => some v
      | none => mapGet kw k)
  ∧ call_with_ctx_async_rust env ds cb args (some kw)
      = .ok (awaitObj (cb.call args (mergeResolved cbs (mergeResolved tys kw))))
  ∧ (∀ k, mapGet (mergeResolved cbs (mergeResolved tys kw)) k =
      match lastResolved cbs k with
      | some v => some v
      | none =>
        match lastResolved tys k with
        | some v => some v
        | none => mapGet kw k) := by
  refine ⟨?_, fun k => mapGet_mergeResolved rs kw k, ?_, ?_⟩
  · cases hds : ds with
    | nil =>
      subst hds
      simp only [resolveDescriptorsSync] at hrs
      cases hrs
      have hnc2 : (cb.call args kw).isCoroutine = false := hnc
      simp [call_with_ctx_rust, mergeResolved, hnc2]
    | cons p rest =>
      subst hds
      simp only [call_with_ctx_rust, List.isEmpty_cons, if_false, Bool.false_eq_true]
      rw [applyDescriptorsSync_eq, hrs]
      simp [hnc]
  · cases hds : ds with
    | nil =>
      subst hds
      simp only [resolveTypeDescriptorsAsync] at hty
      cases hty
      simp only [callbackDescriptorsOf, awaitDescriptorsAsync] at hcb
      cases hcb
      rfl
    | cons p rest =>
      subst hds
      simp only [call_with_ctx_async_rust, List.isEmpty_cons, if_false, Bool.false_eq_true]
      rw [gatherDescriptorsAsync_eq, hty]
      dsimp only
      cases hcbs : callbackDescriptorsOf (p :: rest) with
      | nil =>
        rw [hcbs] at hcb
        simp only [awaitDescriptorsAsync] at hcb
        cases hcb
        rfl
      | cons q qs =>
        rw [hcbs] at hcb
        simp [hcb, mergeResolved]
  · intro k
    rw [mapGet_mergeResolved]
    cases lastResolved cbs k with
    | some v => rfl
    | none => exact mapGet_mergeResolved tys kw k

/-- Concrete instantiation of the amended merge theorem: one resolved type
descriptor colliding with one caller-supplied keyword, on both dispatch
paths. -/
theorem dispatch_kwargs_merge_resolved_wins_witness :
    resolveDescriptorsSync envCollision [("a", .type_ tIntEx)] = .ok [("a", PyObj.obj 2)]
  ∧ call_with_ctx_rust envCollision [("a", .type_ tIntEx)] cbProbeA []
      (some [("a", PyObj.obj 1)])
      = .ok (cbProbeA.call [] (mergeResolved [("a", PyObj.obj 2)] [("a", PyObj.obj 1)]))
  ∧ call_with_ctx_async_rust envCollision [("a", .type_ tIntEx)] cbProbeA []
      (some [("a", PyObj.obj 1)])
      = .ok (awaitObj (cbProbeA.call []
          (mergeResolved [] (mergeResolved [("a", PyObj.obj 2)] [("a", PyObj.obj 1)]))))
  ∧ mapGet (mergeResolved [("a", PyObj.obj 2)] [("a", PyObj.obj 1)]) "a"
      = some (PyObj.obj 2) := by
  have h := dispatch_kwargs_merge_resolved_wins envCollision [("a", .type_ tIntEx)]
    cbProbeA [] [("a", PyObj.obj 1)] [("a", PyObj.obj 2)] [("a", PyObj.obj 2)] []
    rfl rfl rfl rfl
  exact ⟨rfl, h.1, h.2.2.1, rfl⟩

end Alluka
